import Mathlib

/-!
Verification of the fallback extraction engine of `src/ytdlp-service/main.py`.

The development shallowly embeds the body of `extract_video` (lines 68-211):
the strategy catalog `player_configs`, the argument construction, the
per-attempt outcome classification, and the fallback loop with its retained
`last_error`.  The external world (the `yt_dlp` subprocess, the JSON decoder
and the filesystem) is abstracted as an environment of oracle functions, so
that every run of the loop is a pure function of that environment.
-/

namespace YtdlpService

/-- One impersonation configuration.  Mirrors the tuples
`(client_type, skip_type, additional_args)` of `player_configs` (main.py
lines 81-87). -/
structure Strategy where
  clientType : String
  skipType : Option String
  additionalArgs : List String
  deriving DecidableEq, Repr

/-- The fixed, ordered strategy catalog (main.py lines 81-87). -/
def playerConfigs : List Strategy :=
  [⟨"web", some "webpage", []⟩,
   ⟨"web", none, []⟩,
   ⟨"ios", none, []⟩,
   ⟨"android", none, []⟩,
   ⟨"mweb", none, []⟩]

/-- Decides whether `pat` occurs at the head of `s` (character lists). -/
def leadsWith : List Char → List Char → Bool
  | _, [] => true
  | [], _ :: _ => false
  | c :: cs, p :: ps => c == p && leadsWith cs ps

/-- Decides whether `pat` occurs contiguously anywhere inside `s`;
embeds the Python substring test `pat in s`. -/
def containsSub : List Char → List Char → Bool
  | [], pat => leadsWith [] pat
  | c :: rest, pat => leadsWith (c :: rest) pat || containsSub rest pat

/-- Python's `pat in s` on strings. -/
def strContains (s pat : String) : Bool := containsSub s.data pat.data

/-- Python's slice `s[:n]` (by code points). -/
def strTake (s : String) (n : Nat) : String := ⟨s.data.take n⟩

/-- Python's `s.lower()` restricted to the ASCII fragment actually used. -/
def strLower (s : String) : String := ⟨s.data.map Char.toLower⟩

/-- Python's truthiness-based `a or b` on strings: `b` when `a` is empty. -/
def pyOr (a b : String) : String := if a = "" then b else a

/-- Stand-in for `sys.executable` (main.py line 104). -/
def pythonExe : String := "python"

/-- The fixed browser-like identity string (main.py line 110). -/
def userAgent : String :=
  "Mozilla/5.0 (Windows NT 10.0; Win64; x64) AppleWebKit/537.36 (KHTML, like Gecko) Chrome/120.0.0.0 Safari/537.36"

/-- The per-attempt wall-clock bound passed to `subprocess.run`
(main.py line 148). -/
def timeoutSeconds : Nat := 60

/-- The logging/diagnostic label of a strategy (main.py line 99):
`client_type` plus an optional ` (skip: ...)` suffix, guarded by Python
truthiness of `skip_type`. -/
def configName (cfg : Strategy) : String :=
  cfg.clientType ++ (match cfg.skipType with
    | some s => if s = "" then "" else " (skip: " ++ s ++ ")"
    | none => "")

/-- The extractor hint pair added when `skip_type` is truthy
(main.py lines 115-116). -/
def skipArgs : Option String → List String
  | some s => if s = "" then [] else ["--extractor-args", "youtube:player_skip=" ++ s]
  | none => []

/-- The credential flags added when `use_cookies` holds (main.py lines 134-136). -/
def cookieArgs : Option String → Bool → List String
  | some f, true => ["--cookies", f]
  | _, _ => []

/-- The full argument set for one attempt (main.py lines 102-139). -/
def buildArgs (cfg : Strategy) (videoUrl : String) (cookiesFile : Option String)
    (useCookies : Bool) : List String :=
  [pythonExe, "-m", "yt_dlp",
   "--dump-json",
   "--no-warnings",
   "--no-playlist",
   "--user-agent", userAgent,
   "--extractor-args", "youtube:player_client=" ++ cfg.clientType]
  ++ skipArgs cfg.skipType
  ++ ["--extractor-args", "youtube:player_params=8AEB",
      "--extractor-args", "youtube:include_live_chat=false",
      "--extractor-args", "youtube:skip=dash,translated_subs"]
  ++ ["--add-header", "Referer:https://www.youtube.com/"]
  ++ cfg.additionalArgs
  ++ cookieArgs cookiesFile useCookies
  ++ [videoUrl]

/-- Embeds `use_cookies = cookies_file and os.path.exists(cookies_file)`
(main.py lines 90-91), with Python truthiness of the path string. -/
def useCookiesOf : Option String → (String → Bool) → Bool
  | none, _ => false
  | some f, pathExists => if f = "" then false else pathExists f

/-- How many times line 91 evaluates `os.path.exists` during one request:
the conjunction short-circuits, so the check runs exactly once when the
configured path is truthy and never otherwise. -/
def existenceChecks : Option String → Nat
  | none => 0
  | some f => if f = "" then 0 else 1

/-- Failure categories of the classifier (main.py lines 158-187). -/
inductive Category where
  | parseError
  | botDetection
  | unsupportedContent
  | timeout
  | other
  deriving DecidableEq, Repr

/-- Classified failure information retained from an attempt. -/
structure Diagnostic where
  strategyLabel : String
  message : String
  category : Category
  deriving DecidableEq, Repr

/-- Observable behaviour of one `subprocess.run` call: it completes with an
exit status and captured streams, exceeds the wall-clock bound
(`subprocess.TimeoutExpired`), or raises some other exception whose
`str(e)` is `msg`. -/
inductive RunOutcome where
  | completed (returncode : Int) (stdout stderr : String)
  | timedOut
  | raised (msg : String)
  deriving DecidableEq, Repr

/-- What one attempt contributes: the decoded payload on success, or a
`Diagnostic` whose message is exactly the string stored into `last_error`
(main.py lines 152-188). -/
def classify {α : Type} (parse : String → Except String α) (cfg : Strategy)
    (out : RunOutcome) : Except Diagnostic α :=
  match out with
  | .completed returncode stdout stderr =>
    if returncode = 0 then
      match parse stdout with
      | .ok data => .ok data
      | .error e =>
        .error ⟨configName cfg, "Failed to parse yt-dlp output: " ++ e, .parseError⟩
    else
      let errorMsg := pyOr stderr (pyOr stdout "Unknown error")
      if strContains errorMsg "Sign in to confirm" || strContains errorMsg "not a bot" then
        .error ⟨configName cfg,
          "YouTube bot detection (tried " ++ configName cfg ++ ")", .botDetection⟩
      else if strContains errorMsg "not available on this app"
          || strContains errorMsg "Watch on the latest version" then
        .error ⟨configName cfg,
          "Content not available for " ++ configName cfg ++ ": " ++ strTake errorMsg 200,
          .unsupportedContent⟩
      else
        .error ⟨configName cfg, strTake errorMsg 500, .other⟩
  | .timedOut => .error ⟨configName cfg, "Video extraction timed out", .timeout⟩
  | .raised msg => .error ⟨configName cfg, msg, .other⟩

/-- The default used when `last_error` is falsy at exhaustion (main.py line 191). -/
def fallbackMessage : String := "All YouTube client types failed"

/-- The extended remediation message substituted at main.py lines 195-206. -/
def remediationText : String :=
  "YouTube bot detection: All client types were blocked.\n\n⚠️ COOKIES ARE REQUIRED: YouTube now requires browser cookies for most video extractions.\n\nTo fix this:\n1. Install 'Get cookies.txt LOCALLY' extension in Chrome/Edge\n2. Visit youtube.com and sign in\n3. Click the extension → Export → Save as cookies.txt\n4. Upload cookies.txt to your deployment platform\n5. Set YTDLP_COOKIES_FILE environment variable to the file path\n\nSee ytdlp-service/COOKIES_SETUP.md for detailed instructions."

/-- The detail string of the `HTTPException` raised after exhaustion
(main.py lines 190-211), as a function of the final `last_error`. -/
def synthesizeDetail (lastError : Option String) : String :=
  let errorDetail := match lastError with
    | none => fallbackMessage
    | some s => pyOr s fallbackMessage
  let errorDetail2 :=
    if strContains (strLower errorDetail) "bot" || strContains errorDetail "Sign in" then
      remediationText
    else errorDetail
  "yt-dlp extraction failed: " ++ errorDetail2

/-- The engine's externally visible result: a structured payload, or the
HTTP 500 error detail. -/
inductive FinalOutcome (α : Type) where
  | payload (data : α)
  | httpError (detail : String)
  deriving DecidableEq, Repr

/-- One entry of the classification path. -/
inductive AttemptRecord where
  | failed (label : String) (cat : Category)
  | succeeded (label : String)
  deriving DecidableEq, Repr

/-- Full observable trace of one extraction call: result, number of
subprocess invocations, classification path, and the final value of the
`last_error` variable. -/
structure RunTrace (α : Type) where
  result : FinalOutcome α
  invocations : Nat
  attempts : List AttemptRecord
  lastError : Option String
  deriving DecidableEq, Repr

/-- The external world as seen by one request: the JSON decoder
(`json.loads`, returning the decode-error text on failure), the behaviour
of the n-th subprocess invocation on a given argument list, and the
filesystem's answer to `os.path.exists`. -/
structure Env (α : Type) where
  parse : String → Except String α
  behavior : Nat → List String → RunOutcome
  pathExists : String → Bool

section Loop

variable {α : Type} (env : Env α) (videoUrl : String) (cookiesFile : Option String)
  (useCookies : Bool)

/-- The classified outcome of attempt number `n` under strategy `cfg`. -/
def classifyAt (n : Nat) (cfg : Strategy) : Except Diagnostic α :=
  classify env.parse cfg (env.behavior n (buildArgs cfg videoUrl cookiesFile useCookies))

/-- The strategy loop of main.py lines 95-211: tries the given strategies
in order, short-circuits on the first success, retains the most recent
diagnostic message as `last_error`, and synthesizes the final error detail
on exhaustion. -/
def runLoop : List Strategy → Option String → Nat → List AttemptRecord → RunTrace α
  | [], lastError, n, recs =>
    ⟨.httpError (synthesizeDetail lastError), n, recs, lastError⟩
  | cfg :: rest, lastError, n, recs =>
    match classifyAt env videoUrl cookiesFile useCookies n cfg with
    | .ok data => ⟨.payload data, n + 1, recs ++ [.succeeded (configName cfg)], lastError⟩
    | .error d =>
      runLoop rest (some d.message) (n + 1) (recs ++ [.failed d.strategyLabel d.category])

end Loop

/-- The extraction engine over an explicit strategy list: computes
`use_cookies` once (main.py lines 90-91) and drives the loop from
`Trying(0)` with no retained error. -/
def extractWith {α : Type} (env : Env α) (strategies : List Strategy)
    (videoUrl : String) (cookiesFile : Option String) : RunTrace α :=
  runLoop env videoUrl cookiesFile (useCookiesOf cookiesFile env.pathExists)
    strategies none 0 []

/-- The endpoint `extract_video` proper: the engine instantiated at the
fixed catalog. -/
def extract {α : Type} (env : Env α) (videoUrl : String)
    (cookiesFile : Option String) : RunTrace α :=
  extractWith env playerConfigs videoUrl cookiesFile

/-- The diagnostic carried by a failed classification (arbitrary default on
a success, never used there). -/
def errD {α : Type} : Except Diagnostic α → Diagnostic
  | .error d => d
  | .ok _ => ⟨"", "", .other⟩

/-- Whether a classification is a failure. -/
def isErr {α : Type} : Except Diagnostic α → Bool
  | .error _ => true
  | .ok _ => false

section Fail

variable {α : Type} (env : Env α) (videoUrl : String) (cookiesFile : Option String)
  (useCookies : Bool)

/-- Every attempt from invocation number `n` on fails. -/
def allFail : Nat → List Strategy → Bool
  | _, [] => true
  | n, cfg :: rest =>
    isErr (classifyAt env videoUrl cookiesFile useCookies n cfg)
      && allFail (n + 1) rest

/-- The classification path left by a run in which every attempt fails. -/
def failRecs : Nat → List Strategy → List AttemptRecord
  | _, [] => []
  | n, cfg :: rest =>
    .failed (errD (classifyAt env videoUrl cookiesFile useCookies n cfg)).strategyLabel
        (errD (classifyAt env videoUrl cookiesFile useCookies n cfg)).category
      :: failRecs (n + 1) rest

/-- The value of `last_error` after an all-failing run over the given
strategies, starting from retained error `lastError`. -/
def lastMsg : Nat → List Strategy → Option String → Option String
  | _, [], lastError => lastError
  | n, cfg :: rest, _ =>
    lastMsg (n + 1) rest
      (some (errD (classifyAt env videoUrl cookiesFile useCookies n cfg)).message)

end Fail

/-- Whether `pat` occurs as a contiguous block inside the argument list `l`. -/
def containsSeq (pat l : List String) : Prop := ∃ s t, s ++ pat ++ t = l

/-- Outcome kind of a final result: payload or terminal error. -/
def kindOf {α : Type} : FinalOutcome α → Bool
  | .payload _ => true
  | .httpError _ => false

/-- A concrete JSON decoder for witnesses: accepts exactly the text
of an empty object. -/
def parse0 : String → Except String Unit := fun s =>
  if s = "\x7b\x7d" then .ok () else .error "Expecting value: line 1 column 1 (char 0)"

/-- A concrete environment in which every subprocess invocation raises an
exception whose `str(e)` is empty. -/
def env0 : Env Unit := ⟨parse0, fun _ _ => .raised "", fun _ => false⟩

/-- Builds a concrete environment from a subprocess behaviour, with the
witness decoder and an empty filesystem. -/
def envOf (b : Nat → List String → RunOutcome) : Env Unit :=
  ⟨parse0, b, fun _ => false⟩

/-! General lemmas about the string helpers and the loop steps. -/

theorem mk_ne_empty {l : List Char} (h : l ≠ []) : (⟨l⟩ : String) ≠ "" := by
  intro he
  exact h (congrArg String.data he)

theorem append_left_ne_empty (s t : String) (h : s.data ≠ []) : s ++ t ≠ "" := by
  intro he
  have hd : (s ++ t).data = [] := congrArg String.data he
  rw [String.data_append] at hd
  exact h (List.append_eq_nil.mp hd).1

theorem data_append_ne (s t : String) (h : s.data ≠ []) : (s ++ t).data ≠ [] := by
  rw [String.data_append]
  intro he
  exact h (List.append_eq_nil.mp he).1

theorem pyOr_ne_empty (a b : String) (hb : b ≠ "") : pyOr a b ≠ "" := by
  unfold pyOr
  by_cases ha : a = "" <;> simp [ha, hb]

theorem strTake_ne_empty (s : String) (n : Nat) (hs : s ≠ "") (hn : n ≠ 0) :
    strTake s n ≠ "" := by
  apply mk_ne_empty
  rw [Ne, List.take_eq_nil_iff]
  rintro (h | h)
  · exact hn h
  · exact hs (by cases s with | mk l => cases h; rfl)

theorem strContains_nonempty {s p : String} (h : strContains s p = true) (hp : p ≠ "") :
    s ≠ "" := by
  intro hs
  subst hs
  cases hpd : p.data with
  | nil => exact hp (by cases p with | mk l => cases hpd; rfl)
  | cons c cs => rw [strContains, hpd] at h; simp [containsSub, leadsWith] at h

section LoopLemmas

variable {α : Type} (env : Env α) (u : String) (cf : Option String) (uc : Bool)

theorem runLoop_cons_ok (cfg : Strategy) (rest : List Strategy) (le : Option String)
    (n : Nat) (recs : List AttemptRecord) (data : α)
    (h : classifyAt env u cf uc n cfg = .ok data) :
    runLoop env u cf uc (cfg :: rest) le n recs
      = ⟨.payload data, n + 1, recs ++ [.succeeded (configName cfg)], le⟩ := by
  simp [runLoop, h]

theorem runLoop_cons_err (cfg : Strategy) (rest : List Strategy) (le : Option String)
    (n : Nat) (recs : List AttemptRecord) (d : Diagnostic)
    (h : classifyAt env u cf uc n cfg = .error d) :
    runLoop env u cf uc (cfg :: rest) le n recs
      = runLoop env u cf uc rest (some d.message) (n + 1)
          (recs ++ [.failed d.strategyLabel d.category]) := by
  simp [runLoop, h]

end LoopLemmas

section ClassifyLemmas

variable {α : Type} (parse : String → Except String α) (cfg : Strategy)

theorem classify_parse_error (so se e : String) (hp : parse so = .error e) :
    classify parse cfg (.completed 0 so se)
      = .error ⟨configName cfg, "Failed to parse yt-dlp output: " ++ e, .parseError⟩ := by
  simp [classify, hp]

theorem classify_bot (rc : Int) (so se : String) (hrc : ¬ rc = 0)
    (h : strContains (pyOr se (pyOr so "Unknown error")) "Sign in to confirm" = true
       ∨ strContains (pyOr se (pyOr so "Unknown error")) "not a bot" = true) :
    classify parse cfg (.completed rc so se)
      = .error ⟨configName cfg,
          "YouTube bot detection (tried " ++ configName cfg ++ ")", .botDetection⟩ := by
  rcases h with h | h <;> simp [classify, hrc, h]

theorem classify_unsupported (rc : Int) (so se : String) (hrc : ¬ rc = 0)
    (hb1 : strContains (pyOr se (pyOr so "Unknown error")) "Sign in to confirm" = false)
    (hb2 : strContains (pyOr se (pyOr so "Unknown error")) "not a bot" = false)
    (h : strContains (pyOr se (pyOr so "Unknown error")) "not available on this app" = true
       ∨ strContains (pyOr se (pyOr so "Unknown error")) "Watch on the latest version" = true) :
    classify parse cfg (.completed rc so se)
      = .error ⟨configName cfg,
          "Content not available for " ++ configName cfg ++ ": "
            ++ strTake (pyOr se (pyOr so "Unknown error")) 200,
          .unsupportedContent⟩ := by
  rcases h with h | h <;> simp [classify, hrc, h, hb1, hb2]

theorem classify_other (rc : Int) (so se : String) (hrc : ¬ rc = 0)
    (hb1 : strContains (pyOr se (pyOr so "Unknown error")) "Sign in to confirm" = false)
    (hb2 : strContains (pyOr se (pyOr so "Unknown error")) "not a bot" = false)
    (hu1 : strContains (pyOr se (pyOr so "Unknown error")) "not available on this app" = false)
    (hu2 : strContains (pyOr se (pyOr so "Unknown error")) "Watch on the latest version" = false) :
    classify parse cfg (.completed rc so se)
      = .error ⟨configName cfg, strTake (pyOr se (pyOr so "Unknown error")) 500, .other⟩ := by
  simp [classify, hrc, hb1, hb2, hu1, hu2]

theorem classify_timeout :
    classify parse cfg .timedOut
      = .error ⟨configName cfg, "Video extraction timed out", .timeout⟩ := rfl

theorem classify_raised (msg : String) :
    classify parse cfg (.raised msg) = .error ⟨configName cfg, msg, .other⟩ := rfl

end ClassifyLemmas

theorem isErr_iff {α : Type} (e : Except Diagnostic α) :
    isErr e = true ↔ ∃ d, e = .error d := by
  cases e with
  | ok a => simp [isErr]
  | error d => simp [isErr]

section Structural

variable {α : Type} (env : Env α) (u : String) (cf : Option String) (uc : Bool)

theorem bot_step (n : Nat) (cfg : Strategy) (rc : Int) (so se : String)
    (hbeh : env.behavior n (buildArgs cfg u cf uc) = .completed rc so se)
    (hrc : ¬ rc = 0) (hse : strContains se "Sign in to confirm" = true) :
    classifyAt env u cf uc n cfg
      = .error ⟨configName cfg,
          "YouTube bot detection (tried " ++ configName cfg ++ ")", .botDetection⟩ := by
  have hsene : se ≠ "" := strContains_nonempty hse (by decide)
  have hm : pyOr se (pyOr so "Unknown error") = se := by simp [pyOr, hsene]
  unfold classifyAt
  rw [hbeh]
  exact classify_bot env.parse cfg rc so se hrc (Or.inl (by rw [hm]; exact hse))

theorem runLoop_first_success (sk : Strategy) (data : α) :
    ∀ (pre : List Strategy) (n : Nat) (le : Option String) (recs : List AttemptRecord)
      (post post' : List Strategy),
    allFail env u cf uc n pre = true →
    classifyAt env u cf uc (n + pre.length) sk = .ok data →
    runLoop env u cf uc (pre ++ sk :: post) le n recs
        = runLoop env u cf uc (pre ++ sk :: post') le n recs
    ∧ (runLoop env u cf uc (pre ++ sk :: post) le n recs).result = .payload data
    ∧ (runLoop env u cf uc (pre ++ sk :: post) le n recs).invocations
        = n + (pre.length + 1) := by
  intro pre
  induction pre with
  | nil =>
    intro n le recs post post' _ hsucc
    have hsucc' : classifyAt env u cf uc n sk = .ok data := by simpa using hsucc
    rw [List.nil_append, List.nil_append,
        runLoop_cons_ok env u cf uc sk post le n recs data hsucc',
        runLoop_cons_ok env u cf uc sk post' le n recs data hsucc']
    simp
  | cons cfg pre ih =>
    intro n le recs post post' hfail hsucc
    rw [allFail, Bool.and_eq_true] at hfail
    obtain ⟨d, hd⟩ := (isErr_iff _).mp hfail.1
    rw [List.cons_append, List.cons_append,
        runLoop_cons_err env u cf uc cfg (pre ++ sk :: post) le n recs d hd,
        runLoop_cons_err env u cf uc cfg (pre ++ sk :: post') le n recs d hd]
    have heq : n + (cfg :: pre).length = (n + 1) + pre.length := by
      simp [List.length_cons]
      omega
    rw [heq] at hsucc
    obtain ⟨h1, h2, h3⟩ := ih (n + 1) (some d.message)
      (recs ++ [.failed d.strategyLabel d.category]) post post' hfail.2 hsucc
    refine ⟨h1, h2, ?_⟩
    rw [h3]
    simp [List.length_cons]
    omega

theorem runLoop_all_fail :
    ∀ (l : List Strategy) (n : Nat) (le : Option String) (recs : List AttemptRecord),
    allFail env u cf uc n l = true →
    runLoop env u cf uc l le n recs
      = ⟨.httpError (synthesizeDetail (lastMsg env u cf uc n l le)), n + l.length,
         recs ++ failRecs env u cf uc n l, lastMsg env u cf uc n l le⟩ := by
  intro l
  induction l with
  | nil =>
    intro n le recs _
    simp [runLoop, lastMsg, failRecs]
  | cons cfg rest ih =>
    intro n le recs hfail
    rw [allFail, Bool.and_eq_true] at hfail
    obtain ⟨d, hd⟩ := (isErr_iff _).mp hfail.1
    rw [runLoop_cons_err env u cf uc cfg rest le n recs d hd]
    refine (ih (n + 1) (some d.message)
      (recs ++ [AttemptRecord.failed d.strategyLabel d.category]) hfail.2).trans ?_
    simp only [lastMsg, failRecs, hd, errD, List.length_cons, RunTrace.mk.injEq]
    exact ⟨trivial, by omega, by simp, trivial⟩

theorem lastMsg_append_last :
    ∀ (init : List Strategy) (lastCfg : Strategy) (n : Nat) (le : Option String),
    lastMsg env u cf uc n (init ++ [lastCfg]) le
      = some (errD (classifyAt env u cf uc (n + init.length) lastCfg)).message := by
  intro init
  induction init with
  | nil =>
    intro lastCfg n le
    simp [lastMsg]
  | cons cfg init ih =>
    intro lastCfg n le
    rw [List.cons_append, lastMsg, ih lastCfg (n + 1)]
    have heq : (n + 1) + init.length = n + (cfg :: init).length := by
      simp [List.length_cons]
      omega
    rw [heq]

theorem runLoop_build_congr (cf' : Option String) (uc' : Bool)
    (hb : ∀ cfg, buildArgs cfg u cf uc = buildArgs cfg u cf' uc') :
    ∀ (l : List Strategy) (le : Option String) (n : Nat) (recs : List AttemptRecord),
    runLoop env u cf uc l le n recs = runLoop env u cf' uc' l le n recs := by
  intro l
  induction l with
  | nil => intro le n recs; rfl
  | cons cfg rest ih =>
    intro le n recs
    have hc : classifyAt env u cf uc n cfg = classifyAt env u cf' uc' n cfg := by
      unfold classifyAt
      rw [hb cfg]
    simp only [runLoop, hc]
    cases classifyAt env u cf' uc' n cfg with
    | ok data => rfl
    | error d => exact ih (some d.message) (n + 1) (recs ++ [.failed d.strategyLabel d.category])

end Structural

/-! Claim theorems. -/

/-- C5: for every attempt whose process exits with status zero but whose
stdout does not decode as structured JSON, the attempt is classified as a
parse-error Diagnostic (not a success), and the orchestrator advances to
the next strategy. -/
theorem zero_exit_unparseable_is_parse_error {α : Type} (env : Env α) (u : String)
    (cf : Option String) (uc : Bool) (cfg : Strategy) (rest : List Strategy)
    (le : Option String) (n : Nat) (recs : List AttemptRecord) (so se e : String)
    (hbeh : env.behavior n (buildArgs cfg u cf uc) = .completed 0 so se)
    (hp : env.parse so = .error e) :
    classifyAt env u cf uc n cfg
      = .error ⟨configName cfg, "Failed to parse yt-dlp output: " ++ e, .parseError⟩
    ∧ runLoop env u cf uc (cfg :: rest) le n recs
      = runLoop env u cf uc rest (some ("Failed to parse yt-dlp output: " ++ e)) (n + 1)
          (recs ++ [.failed (configName cfg) .parseError]) := by
  have hc : classifyAt env u cf uc n cfg
      = .error ⟨configName cfg, "Failed to parse yt-dlp output: " ++ e, .parseError⟩ := by
    unfold classifyAt
    rw [hbeh]
    exact classify_parse_error env.parse cfg so se e hp
  exact ⟨hc, runLoop_cons_err env u cf uc cfg rest le n recs _ hc⟩

/-- Witness for C5 at a concrete environment whose single strategy exits
zero with unparseable stdout. -/
theorem zero_exit_unparseable_is_parse_error_witness :
    classifyAt (envOf (fun _ _ => .completed 0 "oops" "")) "https://youtu.be/a" none false 0
        ⟨"web", none, []⟩
      = .error ⟨"web",
          "Failed to parse yt-dlp output: Expecting value: line 1 column 1 (char 0)",
          .parseError⟩
    ∧ runLoop (envOf (fun _ _ => .completed 0 "oops" "")) "https://youtu.be/a" none false
        [⟨"web", none, []⟩, ⟨"ios", none, []⟩] none 0 []
      = runLoop (envOf (fun _ _ => .completed 0 "oops" "")) "https://youtu.be/a" none false
          [⟨"ios", none, []⟩]
          (some "Failed to parse yt-dlp output: Expecting value: line 1 column 1 (char 0)") 1
          [.failed "web" .parseError] :=
  zero_exit_unparseable_is_parse_error _ _ _ _ _ _ _ _ _ _ _ _ rfl rfl

/-- C6: an attempt whose subprocess exceeds the wall-clock bound (the
fixed 60 seconds passed to the runner) yields a `timeout` Diagnostic and
the loop advances to the next strategies instead of aborting the
extraction. -/
theorem timeout_diagnostic_advances {α : Type} (env : Env α) (u : String)
    (cf : Option String) (uc : Bool) (cfg : Strategy) (rest : List Strategy)
    (le : Option String) (n : Nat) (recs : List AttemptRecord)
    (hbeh : env.behavior n (buildArgs cfg u cf uc) = .timedOut) :
    classifyAt env u cf uc n cfg
      = .error ⟨configName cfg, "Video extraction timed out", .timeout⟩
    ∧ runLoop env u cf uc (cfg :: rest) le n recs
      = runLoop env u cf uc rest (some "Video extraction timed out") (n + 1)
          (recs ++ [.failed (configName cfg) .timeout])
    ∧ timeoutSeconds = 60 := by
  have hc : classifyAt env u cf uc n cfg
      = .error ⟨configName cfg, "Video extraction timed out", .timeout⟩ := by
    unfold classifyAt
    rw [hbeh]
    rfl
  exact ⟨hc, runLoop_cons_err env u cf uc cfg rest le n recs _ hc, rfl⟩

/-- Witness for C6: a first strategy that times out hands over to the
remaining strategies. -/
theorem timeout_diagnostic_advances_witness :
    classifyAt (envOf (fun _ _ => .timedOut)) "https://youtu.be/a" none false 0
        ⟨"web", some "webpage", []⟩
      = .error ⟨"web (skip: webpage)", "Video extraction timed out", .timeout⟩
    ∧ runLoop (envOf (fun _ _ => .timedOut)) "https://youtu.be/a" none false
        [⟨"web", some "webpage", []⟩, ⟨"ios", none, []⟩] none 0 []
      = runLoop (envOf (fun _ _ => .timedOut)) "https://youtu.be/a" none false
          [⟨"ios", none, []⟩] (some "Video extraction timed out") 1
          [.failed "web (skip: webpage)" .timeout]
    ∧ timeoutSeconds = 60 :=
  timeout_diagnostic_advances _ _ _ _ _ _ _ _ _ rfl

/-- C3 counterexample: the classifier is case-sensitive and inspects
stderr alone whenever stderr is non-empty.  An attempt whose stderr is the
all-lowercase "watch on the latest version" is classified `other`, not
`unsupported-content`; likewise an attempt whose stdout contains
"not available on this app" while stderr holds some other non-empty text
is classified `other`. -/
theorem classifier_case_sensitivity_cex :
    (errD (classify parse0 (⟨"android", none, []⟩ : Strategy)
        (.completed 1 "" "watch on the latest version"))).category = Category.other
    ∧ (errD (classify parse0 (⟨"android", none, []⟩ : Strategy)
        (.completed 1 "not available on this app" "some transient error"))).category
      = Category.other
    ∧ Category.other ≠ Category.unsupportedContent := by
  decide

/-- C3 (amended): for every failed attempt the category is decided by a
first-match-wins, case-sensitive substring match against stderr when
stderr is non-empty, otherwise stdout (otherwise the literal
"Unknown error"); an attempt whose selected stream contains the exact
substrings "not available on this app" or "Watch on the latest version"
(and no bot-detection substring, which is matched first) is classified
unsupported-content, and the loop retries the next strategy. -/
theorem classifier_unsupported_amended {α : Type} (env : Env α) (u : String)
    (cf : Option String) (uc : Bool) (cfg : Strategy) (rest : List Strategy)
    (le : Option String) (n : Nat) (recs : List AttemptRecord)
    (rc : Int) (so se : String)
    (hbeh : env.behavior n (buildArgs cfg u cf uc) = .completed rc so se)
    (hrc : ¬ rc = 0)
    (hb1 : strContains (pyOr se (pyOr so "Unknown error")) "Sign in to confirm" = false)
    (hb2 : strContains (pyOr se (pyOr so "Unknown error")) "not a bot" = false)
    (hu : strContains (pyOr se (pyOr so "Unknown error")) "not available on this app" = true
        ∨ strContains (pyOr se (pyOr so "Unknown error")) "Watch on the latest version" = true) :
    classifyAt env u cf uc n cfg
      = .error ⟨configName cfg,
          "Content not available for " ++ configName cfg ++ ": "
            ++ strTake (pyOr se (pyOr so "Unknown error")) 200,
          .unsupportedContent⟩
    ∧ runLoop env u cf uc (cfg :: rest) le n recs
      = runLoop env u cf uc rest
          (some ("Content not available for " ++ configName cfg ++ ": "
            ++ strTake (pyOr se (pyOr so "Unknown error")) 200)) (n + 1)
          (recs ++ [.failed (configName cfg) .unsupportedContent]) := by
  have hc : classifyAt env u cf uc n cfg
      = .error ⟨configName cfg,
          "Content not available for " ++ configName cfg ++ ": "
            ++ strTake (pyOr se (pyOr so "Unknown error")) 200,
          .unsupportedContent⟩ := by
    unfold classifyAt
    rw [hbeh]
    exact classify_unsupported env.parse cfg rc so se hrc hb1 hb2 hu
  exact ⟨hc, runLoop_cons_err env u cf uc cfg rest le n recs _ hc⟩

/-- Witness for the amended C3: an android attempt rejected with the exact
upstream wording retries on the next strategy. -/
theorem classifier_unsupported_amended_witness :
    classifyAt (envOf (fun _ _ => .completed 1 "" "This video is not available on this app"))
        "https://youtu.be/a" none false 0 ⟨"android", none, []⟩
      = .error ⟨"android",
          "Content not available for android: This video is not available on this app",
          .unsupportedContent⟩
    ∧ runLoop (envOf (fun _ _ => .completed 1 "" "This video is not available on this app"))
        "https://youtu.be/a" none false
        [⟨"android", none, []⟩, ⟨"mweb", none, []⟩] none 0 []
      = runLoop (envOf (fun _ _ => .completed 1 "" "This video is not available on this app"))
          "https://youtu.be/a" none false
          [⟨"mweb", none, []⟩]
          (some "Content not available for android: This video is not available on this app") 1
          [.failed "android" .unsupportedContent] :=
  classifier_unsupported_amended _ _ _ _ _ _ _ _ _ 1 ""
    "This video is not available on this app" rfl (by decide) (by decide)
    (by decide) (Or.inl (by decide))

/-- C8: for every strategy and URL, the built invocation requests
machine-parseable single-item output with playlist expansion disabled,
sets the fixed browser-like user-agent and the YouTube referer header, and
appends the engine-wide compatibility hints (disable dash and translated
sub-streams, disable live-chat fetch) independently of the strategy. -/
theorem invocation_always_has_core_flags (cfg : Strategy) (u : String)
    (cf : Option String) (uc : Bool) :
    "--dump-json" ∈ buildArgs cfg u cf uc
    ∧ "--no-playlist" ∈ buildArgs cfg u cf uc
    ∧ containsSeq ["--user-agent", userAgent] (buildArgs cfg u cf uc)
    ∧ containsSeq ["--add-header", "Referer:https://www.youtube.com/"] (buildArgs cfg u cf uc)
    ∧ containsSeq ["--extractor-args", "youtube:include_live_chat=false"] (buildArgs cfg u cf uc)
    ∧ containsSeq ["--extractor-args", "youtube:skip=dash,translated_subs"] (buildArgs cfg u cf uc) := by
  refine ⟨by simp [buildArgs], by simp [buildArgs], ?_, ?_, ?_, ?_⟩
  · exact ⟨[pythonExe, "-m", "yt_dlp", "--dump-json", "--no-warnings", "--no-playlist"],
      ["--extractor-args", "youtube:player_client=" ++ cfg.clientType]
        ++ skipArgs cfg.skipType
        ++ ["--extractor-args", "youtube:player_params=8AEB",
            "--extractor-args", "youtube:include_live_chat=false",
            "--extractor-args", "youtube:skip=dash,translated_subs"]
        ++ ["--add-header", "Referer:https://www.youtube.com/"]
        ++ cfg.additionalArgs ++ cookieArgs cf uc ++ [u],
      by simp [buildArgs]⟩
  · exact ⟨[pythonExe, "-m", "yt_dlp", "--dump-json", "--no-warnings", "--no-playlist",
        "--user-agent", userAgent,
        "--extractor-args", "youtube:player_client=" ++ cfg.clientType]
        ++ skipArgs cfg.skipType
        ++ ["--extractor-args", "youtube:player_params=8AEB",
            "--extractor-args", "youtube:include_live_chat=false",
            "--extractor-args", "youtube:skip=dash,translated_subs"],
      cfg.additionalArgs ++ cookieArgs cf uc ++ [u],
      by simp [buildArgs]⟩
  · exact ⟨[pythonExe, "-m", "yt_dlp", "--dump-json", "--no-warnings", "--no-playlist",
        "--user-agent", userAgent,
        "--extractor-args", "youtube:player_client=" ++ cfg.clientType]
        ++ skipArgs cfg.skipType
        ++ ["--extractor-args", "youtube:player_params=8AEB"],
      ["--extractor-args", "youtube:skip=dash,translated_subs"]
        ++ ["--add-header", "Referer:https://www.youtube.com/"]
        ++ cfg.additionalArgs ++ cookieArgs cf uc ++ [u],
      by simp [buildArgs]⟩
  · exact ⟨[pythonExe, "-m", "yt_dlp", "--dump-json", "--no-warnings", "--no-playlist",
        "--user-agent", userAgent,
        "--extractor-args", "youtube:player_client=" ++ cfg.clientType]
        ++ skipArgs cfg.skipType
        ++ ["--extractor-args", "youtube:player_params=8AEB",
            "--extractor-args", "youtube:include_live_chat=false"],
      ["--add-header", "Referer:https://www.youtube.com/"]
        ++ cfg.additionalArgs ++ cookieArgs cf uc ++ [u],
      by simp [buildArgs]⟩

/-- C9: two runs over environments in which the decoder, the subprocess
behaviour and the filesystem answer identically take the same
classification path: same attempted strategies and per-attempt categories,
same invocation count, and the same final outcome kind. -/
theorem extract_classification_deterministic {α : Type} (env₁ env₂ : Env α)
    (u : String) (cf : Option String)
    (hp : ∀ s, env₁.parse s = env₂.parse s)
    (hb : ∀ n a, env₁.behavior n a = env₂.behavior n a)
    (he : ∀ p, env₁.pathExists p = env₂.pathExists p) :
    (extract env₁ u cf).attempts = (extract env₂ u cf).attempts
    ∧ (extract env₁ u cf).invocations = (extract env₂ u cf).invocations
    ∧ kindOf (extract env₁ u cf).result = kindOf (extract env₂ u cf).result := by
  obtain ⟨p₁, b₁, e₁⟩ := env₁
  obtain ⟨p₂, b₂, e₂⟩ := env₂
  have h1 : p₁ = p₂ := funext hp
  have h2 : b₁ = b₂ := funext fun n => funext (hb n)
  have h3 : e₁ = e₂ := funext he
  subst h1
  subst h2
  subst h3
  exact ⟨rfl, rfl, rfl⟩

/-- Witness for C9 at a concrete environment compared with itself. -/
theorem extract_classification_deterministic_witness :
    (extract env0 "https://youtu.be/a" none).attempts
      = (extract env0 "https://youtu.be/a" none).attempts
    ∧ (extract env0 "https://youtu.be/a" none).invocations
      = (extract env0 "https://youtu.be/a" none).invocations
    ∧ kindOf (extract env0 "https://youtu.be/a" none).result
      = kindOf (extract env0 "https://youtu.be/a" none).result :=
  extract_classification_deterministic env0 env0 _ _ (fun _ => rfl) (fun _ _ => rfl)
    (fun _ => rfl)

/-- C10 counterexample: when every attempt raises an exception whose
`str(e)` is empty — the `except Exception` branch of the loop — the
retained `last_error` is the empty string, which is falsy, so the run
surfaces the supposedly unreachable fallback text
"All YouTube client types failed". -/
theorem fallback_message_reachable_cex :
    (extract env0 "https://youtu.be/dQw4w9WgXcQ" none).result
      = .httpError ("yt-dlp extraction failed: " ++ fallbackMessage)
    ∧ (extract env0 "https://youtu.be/dQw4w9WgXcQ" none).lastError = some ""
    ∧ (extract env0 "https://youtu.be/dQw4w9WgXcQ" none).invocations = 5 := by
  exact ⟨rfl, rfl, rfl⟩

/-- C10 (amended): the catalog is non-empty and every failure branch other
than the internal-exception branch records a non-empty diagnostic message;
a failed attempt records an empty message exactly when its subprocess call
raised an exception with empty text, and only then does the surfacing
`last_error or fallback` pick the fallback. -/
theorem empty_diagnostic_only_from_exception {α : Type}
    (parse : String → Except String α) (cfg : Strategy) (out : RunOutcome)
    (d : Diagnostic) (h : classify parse cfg out = .error d) :
    (d.message = "" ↔ out = RunOutcome.raised "")
    ∧ (d.message ≠ "" → pyOr d.message fallbackMessage = d.message)
    ∧ playerConfigs ≠ [] := by
  refine ⟨?_, fun hne => by simp [pyOr, hne], by simp [playerConfigs]⟩
  cases out with
  | completed rc so se =>
    have hne : d.message ≠ "" := by
      by_cases hrc : rc = 0
      · subst hrc
        cases hps : parse so with
        | ok a => rw [show classify parse cfg (.completed 0 so se) = .ok a by
            simp [classify, hps]] at h; exact absurd h (by simp)
        | error e =>
          rw [classify_parse_error parse cfg so se e hps] at h
          injection h with h'
          subst h'
          exact append_left_ne_empty _ _ (by decide)
      · have hmsgne : pyOr se (pyOr so "Unknown error") ≠ "" :=
          pyOr_ne_empty _ _ (pyOr_ne_empty _ _ (by decide))
        by_cases c1 : strContains (pyOr se (pyOr so "Unknown error")) "Sign in to confirm" = true
        · rw [classify_bot parse cfg rc so se hrc (Or.inl c1)] at h
          injection h with h'
          subst h'
          exact append_left_ne_empty _ _ (data_append_ne _ _ (by decide))
        · by_cases c2 : strContains (pyOr se (pyOr so "Unknown error")) "not a bot" = true
          · rw [classify_bot parse cfg rc so se hrc (Or.inr c2)] at h
            injection h with h'
            subst h'
            exact append_left_ne_empty _ _ (data_append_ne _ _ (by decide))
          · have c1' := eq_false_of_ne_true c1
            have c2' := eq_false_of_ne_true c2
            by_cases c3 : strContains (pyOr se (pyOr so "Unknown error"))
                "not available on this app" = true
            · rw [classify_unsupported parse cfg rc so se hrc c1' c2' (Or.inl c3)] at h
              injection h with h'
              subst h'
              exact append_left_ne_empty _ _ (data_append_ne _ _ (data_append_ne _ _ (by decide)))
            · by_cases c4 : strContains (pyOr se (pyOr so "Unknown error"))
                  "Watch on the latest version" = true
              · rw [classify_unsupported parse cfg rc so se hrc c1' c2' (Or.inr c4)] at h
                injection h with h'
                subst h'
                exact append_left_ne_empty _ _ (data_append_ne _ _ (data_append_ne _ _ (by decide)))
              · rw [classify_other parse cfg rc so se hrc c1' c2'
                  (eq_false_of_ne_true c3) (eq_false_of_ne_true c4)] at h
                injection h with h'
                subst h'
                exact strTake_ne_empty _ _ hmsgne (by decide)
    exact ⟨fun hmsg => absurd hmsg hne, fun hcon => RunOutcome.noConfusion hcon⟩
  | timedOut =>
    rw [classify_timeout] at h
    injection h with h'
    subst h'
    exact ⟨fun hmsg => by simp at hmsg, fun hcon => RunOutcome.noConfusion hcon⟩
  | raised msg =>
    rw [classify_raised] at h
    injection h with h'
    subst h'
    constructor
    · intro hmsg
      have hm : msg = "" := hmsg
      rw [hm]
    · intro hcon
      injection hcon

/-- C1: if every strategy before `sk` fails and attempt number
`pre.length` under `sk` is classified SUCCESS, then the run performs
exactly `pre.length + 1` invocations, returns `sk`'s decoded payload, and
its whole trace is independent of the strategies after `sk` — they are
never attempted. -/
theorem extract_first_success {α : Type} (env : Env α) (u : String) (cf : Option String)
    (pre : List Strategy) (sk : Strategy) (post : List Strategy) (data : α)
    (hfail : allFail env u cf (useCookiesOf cf env.pathExists) 0 pre = true)
    (hsucc : classifyAt env u cf (useCookiesOf cf env.pathExists) pre.length sk
      = .ok data) :
    (extractWith env (pre ++ sk :: post) u cf).result = .payload data
    ∧ (extractWith env (pre ++ sk :: post) u cf).invocations = pre.length + 1
    ∧ extractWith env (pre ++ sk :: post) u cf = extractWith env (pre ++ [sk]) u cf := by
  obtain ⟨h1, h2, h3⟩ := runLoop_first_success env u cf (useCookiesOf cf env.pathExists)
    sk data pre 0 none [] post [] hfail (by simpa using hsucc)
  exact ⟨h2, h3.trans (by omega), h1⟩

/-- Witness for C1: the first strategy fails, the second succeeds, a third
is present but never attempted. -/
theorem extract_first_success_witness :
    (extractWith
        (envOf (fun n _ => if n = 0 then .completed 1 "" "boom" else .completed 0 "\x7b\x7d" ""))
        ([(⟨"web", some "webpage", []⟩ : Strategy)]
          ++ (⟨"web", none, []⟩ : Strategy) :: [(⟨"ios", none, []⟩ : Strategy)])
        "https://youtu.be/a" none).result = .payload ()
    ∧ (extractWith
        (envOf (fun n _ => if n = 0 then .completed 1 "" "boom" else .completed 0 "\x7b\x7d" ""))
        ([(⟨"web", some "webpage", []⟩ : Strategy)]
          ++ (⟨"web", none, []⟩ : Strategy) :: [(⟨"ios", none, []⟩ : Strategy)])
        "https://youtu.be/a" none).invocations = 1 + 1
    ∧ extractWith
        (envOf (fun n _ => if n = 0 then .completed 1 "" "boom" else .completed 0 "\x7b\x7d" ""))
        ([(⟨"web", some "webpage", []⟩ : Strategy)]
          ++ (⟨"web", none, []⟩ : Strategy) :: [(⟨"ios", none, []⟩ : Strategy)])
        "https://youtu.be/a" none
      = extractWith
          (envOf (fun n _ => if n = 0 then .completed 1 "" "boom" else .completed 0 "\x7b\x7d" ""))
          ([(⟨"web", some "webpage", []⟩ : Strategy)] ++ [(⟨"web", none, []⟩ : Strategy)])
          "https://youtu.be/a" none :=
  extract_first_success _ _ _ [⟨"web", some "webpage", []⟩] ⟨"web", none, []⟩
    [⟨"ios", none, []⟩] () (by decide) rfl

/-- C2: if every strategy's attempt fails, the run performs exactly N
invocations and the surfaced error detail is the deterministic function
`synthesizeDetail` of the last attempt's Diagnostic alone; earlier
diagnostics never appear. -/
theorem extract_exhaustion_last_diagnostic {α : Type} (env : Env α) (u : String)
    (cf : Option String) (init : List Strategy) (lastCfg : Strategy)
    (hall : allFail env u cf (useCookiesOf cf env.pathExists) 0 (init ++ [lastCfg]) = true) :
    (extractWith env (init ++ [lastCfg]) u cf).invocations = (init ++ [lastCfg]).length
    ∧ (extractWith env (init ++ [lastCfg]) u cf).result
      = .httpError (synthesizeDetail (some (errD (classifyAt env u cf
          (useCookiesOf cf env.pathExists) init.length lastCfg)).message)) := by
  unfold extractWith
  rw [runLoop_all_fail env u cf (useCookiesOf cf env.pathExists) (init ++ [lastCfg])
      0 none [] hall]
  rw [lastMsg_append_last env u cf (useCookiesOf cf env.pathExists) init lastCfg 0 none]
  exact ⟨by simp, by simp⟩

/-- Witness for C2: two strategies, both failing with a plain error. -/
theorem extract_exhaustion_last_diagnostic_witness :
    (extractWith (envOf (fun _ _ => .completed 1 "" "boom"))
        ([(⟨"web", some "webpage", []⟩ : Strategy)] ++ [(⟨"ios", none, []⟩ : Strategy)])
        "https://youtu.be/a" none).invocations
      = ([(⟨"web", some "webpage", []⟩ : Strategy)] ++ [(⟨"ios", none, []⟩ : Strategy)]).length
    ∧ (extractWith (envOf (fun _ _ => .completed 1 "" "boom"))
        ([(⟨"web", some "webpage", []⟩ : Strategy)] ++ [(⟨"ios", none, []⟩ : Strategy)])
        "https://youtu.be/a" none).result
      = .httpError (synthesizeDetail (some (errD (classifyAt
          (envOf (fun _ _ => .completed 1 "" "boom")) "https://youtu.be/a" none
          (useCookiesOf none (envOf (fun _ _ => .completed 1 "" "boom")).pathExists) 1
          ⟨"ios", none, []⟩)).message)) :=
  extract_exhaustion_last_diagnostic _ _ _ [⟨"web", some "webpage", []⟩] ⟨"ios", none, []⟩
    (by decide)

/-- C4: when all 5 catalog strategies fail with a stderr containing
"Sign in to confirm", the run performs exactly 5 invocations, every
attempt keeps the bot-detection category, and the surfaced detail is the
extended remediation text about supplying a cookies file. -/
theorem extract_bot_detection_remediation {α : Type} (env : Env α) (u : String)
    (cf : Option String)
    (h : ∀ i (hi : i < playerConfigs.length), ∃ rc so se,
        env.behavior i (buildArgs (playerConfigs.get ⟨i, hi⟩) u cf
          (useCookiesOf cf env.pathExists)) = .completed rc so se
        ∧ ¬ rc = 0
        ∧ strContains se "Sign in to confirm" = true) :
    (extract env u cf).invocations = 5
    ∧ (extract env u cf).result
      = .httpError ("yt-dlp extraction failed: " ++ remediationText)
    ∧ (extract env u cf).attempts =
        [.failed "web (skip: webpage)" .botDetection,
         .failed "web" .botDetection,
         .failed "ios" .botDetection,
         .failed "android" .botDetection,
         .failed "mweb" .botDetection] := by
  obtain ⟨rc0, so0, se0, hb0, hr0, hs0⟩ := h 0 (by decide)
  obtain ⟨rc1, so1, se1, hb1, hr1, hs1⟩ := h 1 (by decide)
  obtain ⟨rc2, so2, se2, hb2, hr2, hs2⟩ := h 2 (by decide)
  obtain ⟨rc3, so3, se3, hb3, hr3, hs3⟩ := h 3 (by decide)
  obtain ⟨rc4, so4, se4, hb4, hr4, hs4⟩ := h 4 (by decide)
  have e0 : classifyAt env u cf (useCookiesOf cf env.pathExists) 0
      ⟨"web", some "webpage", []⟩
      = .error ⟨"web (skip: webpage)",
          "YouTube bot detection (tried web (skip: webpage))", .botDetection⟩ :=
    bot_step env u cf (useCookiesOf cf env.pathExists) 0 ⟨"web", some "webpage", []⟩
      rc0 so0 se0 hb0 hr0 hs0
  have e1 : classifyAt env u cf (useCookiesOf cf env.pathExists) 1 ⟨"web", none, []⟩
      = .error ⟨"web", "YouTube bot detection (tried web)", .botDetection⟩ :=
    bot_step env u cf (useCookiesOf cf env.pathExists) 1 ⟨"web", none, []⟩
      rc1 so1 se1 hb1 hr1 hs1
  have e2 : classifyAt env u cf (useCookiesOf cf env.pathExists) 2 ⟨"ios", none, []⟩
      = .error ⟨"ios", "YouTube bot detection (tried ios)", .botDetection⟩ :=
    bot_step env u cf (useCookiesOf cf env.pathExists) 2 ⟨"ios", none, []⟩
      rc2 so2 se2 hb2 hr2 hs2
  have e3 : classifyAt env u cf (useCookiesOf cf env.pathExists) 3 ⟨"android", none, []⟩
      = .error ⟨"android", "YouTube bot detection (tried android)", .botDetection⟩ :=
    bot_step env u cf (useCookiesOf cf env.pathExists) 3 ⟨"android", none, []⟩
      rc3 so3 se3 hb3 hr3 hs3
  have e4 : classifyAt env u cf (useCookiesOf cf env.pathExists) 4 ⟨"mweb", none, []⟩
      = .error ⟨"mweb", "YouTube bot detection (tried mweb)", .botDetection⟩ :=
    bot_step env u cf (useCookiesOf cf env.pathExists) 4 ⟨"mweb", none, []⟩
      rc4 so4 se4 hb4 hr4 hs4
  unfold extract extractWith
  rw [show playerConfigs
      = ⟨"web", some "webpage", []⟩ :: ⟨"web", none, []⟩ :: ⟨"ios", none, []⟩
        :: ⟨"android", none, []⟩ :: ⟨"mweb", none, []⟩ :: ([] : List Strategy) from rfl]
  rw [runLoop_cons_err env u cf (useCookiesOf cf env.pathExists) _ _ none 0 [] _ e0]
  rw [runLoop_cons_err env u cf (useCookiesOf cf env.pathExists) _ _ _ 1 _ _ e1]
  rw [runLoop_cons_err env u cf (useCookiesOf cf env.pathExists) _ _ _ 2 _ _ e2]
  rw [runLoop_cons_err env u cf (useCookiesOf cf env.pathExists) _ _ _ 3 _ _ e3]
  rw [runLoop_cons_err env u cf (useCookiesOf cf env.pathExists) _ _ _ 4 _ _ e4]
  refine ⟨rfl, ?_, by simp [runLoop]⟩
  have hsyn : synthesizeDetail (some "YouTube bot detection (tried mweb)")
      = "yt-dlp extraction failed: " ++ remediationText := by
    have h1 : pyOr "YouTube bot detection (tried mweb)" fallbackMessage
        = "YouTube bot detection (tried mweb)" := by decide
    have h2 : strContains (strLower "YouTube bot detection (tried mweb)") "bot" = true := by
      decide
    simp [synthesizeDetail, h1, h2]
  show FinalOutcome.httpError
      (synthesizeDetail (some "YouTube bot detection (tried mweb)")) = _
  rw [hsyn]

/-- Witness for C4: all five attempts blocked by bot detection. -/
theorem extract_bot_detection_remediation_witness :
    (extract (envOf (fun _ _ => .completed 1 "" "Sign in to confirm you are human"))
        "https://youtu.be/a" none).invocations = 5
    ∧ (extract (envOf (fun _ _ => .completed 1 "" "Sign in to confirm you are human"))
        "https://youtu.be/a" none).result
      = .httpError ("yt-dlp extraction failed: " ++ remediationText)
    ∧ (extract (envOf (fun _ _ => .completed 1 "" "Sign in to confirm you are human"))
        "https://youtu.be/a" none).attempts =
        [.failed "web (skip: webpage)" .botDetection,
         .failed "web" .botDetection,
         .failed "ios" .botDetection,
         .failed "android" .botDetection,
         .failed "mweb" .botDetection] :=
  extract_bot_detection_remediation _ _ _ (fun i _ =>
    ⟨1, "", "Sign in to confirm you are human", rfl, by decide, by decide⟩)

/-- C7: when a credential bundle path is configured but the file does not
exist, the cookies predicate is false, every invocation is built exactly
as if no bundle were set, the whole extraction is unchanged, and the
existence check runs once per request. -/
theorem missing_cookies_file_ignored {α : Type} (env : Env α) (f : String)
    (hne : ¬ f = "") (hmiss : env.pathExists f = false) :
    useCookiesOf (some f) env.pathExists = false
    ∧ (∀ (cfg : Strategy) (u2 : String),
        buildArgs cfg u2 (some f) (useCookiesOf (some f) env.pathExists)
          = buildArgs cfg u2 none (useCookiesOf none env.pathExists))
    ∧ (∀ u2 : String, extract env u2 (some f) = extract env u2 none)
    ∧ existenceChecks (some f) = 1 := by
  have huc : useCookiesOf (some f) env.pathExists = false := by
    simp [useCookiesOf, hne, hmiss]
  have hb : ∀ (cfg : Strategy) (u2 : String),
      buildArgs cfg u2 (some f) false = buildArgs cfg u2 none false := fun _ _ => rfl
  refine ⟨huc, ?_, ?_, by simp [existenceChecks, hne]⟩
  · intro cfg u2
    rw [huc]
    exact hb cfg u2
  · intro u2
    unfold extract extractWith
    rw [huc]
    exact runLoop_build_congr env u2 (some f) false none false (hb · u2)
      playerConfigs none 0 []

/-- Witness for C7: a configured but absent cookies file is ignored. -/
theorem missing_cookies_file_ignored_witness :
    useCookiesOf (some "/data/cookies.txt") env0.pathExists = false
    ∧ buildArgs ⟨"web", none, []⟩ "https://youtu.be/a" (some "/data/cookies.txt")
        (useCookiesOf (some "/data/cookies.txt") env0.pathExists)
      = buildArgs ⟨"web", none, []⟩ "https://youtu.be/a" none
        (useCookiesOf none env0.pathExists)
    ∧ extract env0 "https://youtu.be/a" (some "/data/cookies.txt")
      = extract env0 "https://youtu.be/a" none
    ∧ existenceChecks (some "/data/cookies.txt") = 1 := by
  obtain ⟨h1, h2, h3, h4⟩ :=
    missing_cookies_file_ignored env0 "/data/cookies.txt" (by decide) rfl
  exact ⟨h1, h2 ⟨"web", none, []⟩ "https://youtu.be/a", h3 "https://youtu.be/a", h4⟩

/-- Witness for the amended C10: a raised exception with non-empty text
records that text, and the surfacing keeps it rather than the fallback. -/
theorem empty_diagnostic_only_from_exception_witness :
    (("boom" : String) = "" ↔ RunOutcome.raised "boom" = RunOutcome.raised "")
    ∧ (("boom" : String) ≠ "" → pyOr "boom" fallbackMessage = "boom")
    ∧ playerConfigs ≠ [] :=
  empty_diagnostic_only_from_exception parse0 ⟨"web", none, []⟩ (.raised "boom")
    ⟨"web", "boom", .other⟩ rfl

end YtdlpService
